import Mathlib

/-!
Shallow embedding of `vit_jax/models_vit.py` (hybrid Vision Transformer with
MBConv / squeeze-excitation blocks) and proofs about the claims of its
specification.

The embedding has several layers, each faithful to a slice of the source:

* pure arithmetic helpers (`make_divisible`, `pyRound`) translated directly
  from the Python functions;
* a spatial-shape semantics of the VALID strided patch-embedding convolution
  (`validConvDim`, `patchEmbedGrid`), following the standard
  `lax.conv_general_dilated` output-shape rule that `flax.linen.Conv` uses:
  with padding VALID the output extent is `(size - kernel) // stride + 1`
  clamped at zero, so the convolution never fails — an extent smaller than
  the kernel just yields a zero-sized output dimension;
* the three rank-3 assertion sites (`AddPositionEmbs`, `Encoder1DBlock`,
  `Encoder`) with the exact error messages of the source (the `Encoder`
  site is a bare `assert` and carries no message);
* a dataflow model of the whole forward pass, parametric in an abstract
  tensor type `T` and rng-key type `R` via a `TensorOps` record whose fields
  stand for the framework layers (`nn.Conv`, `nn.Dense`, `nn.LayerNorm`,
  `nn.BatchNorm`, `nn.MultiHeadDotProductAttention`, ...).  Stochastic
  layers receive an rng key only on their stochastic branch, mirroring the
  fact that `flax.linen.Dropout` and the attention layer never touch an rng
  stream when `deterministic` holds.  A syntactic instantiation `TExpr`
  records the exact operation graph that a call builds;
* a channel-width semantics (`broadcastW`, `convW`, ..., `...width`)
  following NumPy broadcasting for `+`/`*` and the `feature_group_count`
  divisibility rule of grouped convolutions;
* a concrete batch-of-token-sequences semantics of the class-token
  tile/concatenate lines (`jnpTileBatch`, `jnpConcatAxis1`).
-/

/-- Source `_make_divisible(v, divisor, min_value=None)`.  `int(v + divisor / 2)`
truncates the exact value `v + divisor/2`, i.e. it equals `(2*v + divisor) / 2`
in natural division; the float comparison `new_v < 0.9 * v` is the exact
comparison `10 * new_v < 9 * v`. -/
def make_divisible (v divisor : ℕ) (min_value : Option ℕ) : ℕ :=
  let min_value := min_value.getD divisor
  let new_v := max min_value ((2 * v + divisor) / 2 / divisor * divisor)
  if 10 * new_v < 9 * v then new_v + divisor else new_v

/-- Python `round` (banker's rounding, half to even) on an exact rational. -/
def pyRound (q : ℚ) : ℤ :=
  let f := ⌊q⌋
  let r := q - f
  if r < 1/2 then f
  else if 1/2 < r then f + 1
  else if f % 2 = 0 then f else f + 1

/-- Source `SELayer.__call__` line `features = _make_divisible(self.inp // self.reduction, 4)`
(no `min_value` argument is passed). -/
def SELayer.features (inp reduction : ℕ) : ℕ :=
  make_divisible (inp / reduction) 4 none

/-! ## Spatial shape of the VALID patch-embedding convolution (C2) -/

/-- Output extent of one spatial dimension of a convolution with padding
VALID, kernel `k` and stride `s`: jax computes `(size - k) // s + 1` clamped
at zero (`np.maximum(0, ...)`; XLA's window bound likewise returns 0 when
the window exceeds the base), so for `k > size` the convolution succeeds
with a zero-sized output extent rather than failing. -/
def validConvDim (size k s : ℕ) : ℕ :=
  if k ≤ size then (size - k) / s + 1 else 0

/-- Spatial grid produced by the `embedding` convolution of
`VisionTransformer.__call__`: kernel size and strides both equal the patch
size, padding VALID. -/
def patchEmbedGrid (h w ph pw : ℕ) : ℕ × ℕ :=
  (validConvDim h ph ph, validConvDim w pw pw)

/-- Number of input rows (resp. columns) actually read by a VALID
convolution producing `out` output positions with kernel `k`, stride `s`:
the last window ends at `(out - 1) * s + k`. -/
def consumedExtent (out k s : ℕ) : ℕ := (out - 1) * s + k

/-! ## The three rank-3 assertion sites (C3) -/

/-- Python `repr` of a shape tuple, e.g. `(2, 5)`, `(7,)`. -/
def pyShapeStr (shape : List ℕ) : String :=
  match shape with
  | [d] => "(" ++ toString d ++ ",)"
  | _ => "(" ++ String.intercalate ", " (shape.map toString) ++ ")"

/-- Message of the assert in `AddPositionEmbs.__call__`:
`'Number of dimensions should be 3, but it is: %d' % inputs.ndim`. -/
def AddPositionEmbs.assertMsg (ndim : ℕ) : Option String :=
  some ("Number of dimensions should be 3, but it is: " ++ toString ndim)

/-- The assert in `AddPositionEmbs.__call__`: fails exactly on non-rank-3
input, with the message above. -/
def AddPositionEmbs.ndimCheck (ndim : ℕ) : Except (Option String) Unit :=
  if ndim = 3 then .ok () else .error (AddPositionEmbs.assertMsg ndim)

/-- Message of the assert in `Encoder1DBlock.__call__`:
`f'Expected (batch, seq, hidden) got {inputs.shape}'`. -/
def Encoder1DBlock.assertMsg (shape : List ℕ) : Option String :=
  some ("Expected (batch, seq, hidden) got " ++ pyShapeStr shape)

/-- The assert in `Encoder1DBlock.__call__`. -/
def Encoder1DBlock.ndimCheck (shape : List ℕ) : Except (Option String) Unit :=
  if shape.length = 3 then .ok () else .error (Encoder1DBlock.assertMsg shape)

/-- The assert in `Encoder.__call__` is the bare `assert x.ndim == 3`:
it has no message. -/
def Encoder.assertMsg : Option String := none

/-- The assert in `Encoder.__call__`: fails exactly on non-rank-3 input,
with no message. -/
def Encoder.ndimCheck (ndim : ℕ) : Except (Option String) Unit :=
  if ndim = 3 then .ok () else .error Encoder.assertMsg

/-! ## Dataflow model of the forward pass -/

/-- Arguments of a `flax.linen.Conv` construction as used in the source. -/
structure ConvCfg where
  features : ℕ
  kernel : ℕ × ℕ
  strides : ℕ × ℕ := (1, 1)
  feature_group_count : ℕ := 1
  use_bias : Bool := true
  padding_valid : Bool := false
deriving DecidableEq

/-- Abstract tensor operations.  `T` is the tensor type, `R` the rng-key
type.  Parameter-bearing layers take the flax module path, so distinct
sites stand for distinct learned parameters.  `dropoutMask`,
`dropBlockMask` and the `Option R` argument of `attention` are the only
consumers of randomness; the forward definitions below hand them an rng key
exactly when the corresponding flax layer would draw one. -/
structure TensorOps (T R : Type) where
  conv : String → ConvCfg → T → T
  stdConv : String → ConvCfg → T → T
  dense : String → ℕ → T → T
  layerNorm : String → T → T
  batchNorm : String → Bool → T → T
  groupNorm : String → T → T
  attention : String → ℕ → ℚ → Option R → T → T
  dropoutMask : ℚ → R → T → T
  dropBlockMask : ℚ → R → T → T
  gelu : T → T
  silu : T → T
  sigmoid : T → T
  tanh : T → T
  relu : T → T
  add : T → T → T
  mul : T → T → T
  smul : ℚ → T → T
  maxPool : T → T
  reshapeTokens : T → T
  tileBatch : T → T
  concatSeq : T → T → T
  index0 : T → T
  meanTokens : T → T
  param : String → T
  resnetStage : String → ℕ → ℕ → T → T
  foldRng : R → String → R

variable {T R : Type}

/-- `flax.linen.Dropout`: returns the input unchanged when the rate is zero
or `deterministic` holds; only otherwise does it consume the rng. -/
def nnDropout (ops : TensorOps T R) (rate : ℚ) (deterministic : Bool) (rng : R) (x : T) : T :=
  if rate == 0 || deterministic then x else ops.dropoutMask rate rng x

/-- Source `IdentityLayer.__call__`. -/
def IdentityLayer.call (x : T) : T := x

/-- Source `AddPositionEmbs.__call__` dataflow: `inputs + pe` with the
learned `pos_embedding` parameter.  (Its rank-3 assert is modelled by
`AddPositionEmbs.ndimCheck`.) -/
def AddPositionEmbs.call (ops : TensorOps T R) (name : String) (inputs : T) : T :=
  ops.add inputs (ops.param (name ++ "/pos_embedding"))

/-- Attributes of `MlpBlock`. -/
structure MlpBlockCfg where
  mlp_dim : ℕ
  out_dim : Option ℕ := none
  dropout_rate : ℚ := 1/10
deriving DecidableEq

/-- Source `MlpBlock.__call__`: dense → gelu → dropout → dense → dropout.
`inputsLastDim` stands for the runtime `inputs.shape[-1]` read by
`actual_out_dim`. -/
def MlpBlock.call (ops : TensorOps T R) (cfg : MlpBlockCfg) (name : String)
    (inputsLastDim : ℕ) (rng : R) (inputs : T) (deterministic : Bool) : T :=
  let actual_out_dim := cfg.out_dim.getD inputsLastDim
  let x := ops.dense (name ++ "/Dense_0") cfg.mlp_dim inputs
  let x := ops.gelu x
  let x := nnDropout ops cfg.dropout_rate deterministic (ops.foldRng rng (name ++ "/Dropout_0")) x
  let output := ops.dense (name ++ "/Dense_1") actual_out_dim x
  nnDropout ops cfg.dropout_rate deterministic (ops.foldRng rng (name ++ "/Dropout_1")) output

/-- Attributes of `ConvBlock`. -/
structure ConvBlockCfg where
  oup : ℕ
  kernel : ℕ
  stride : ℕ := 1
  groups : ℕ := 1
  dropout : ℚ := 0
  act : Bool := true
  has_skip : Bool := false
deriving DecidableEq

/-- Source `ConvBlock.__call__`: conv → (dropout if rate nonzero, keyed on
batch-stats mutability) → batch norm → (silu if `act`) → (+ shortcut if
`has_skip`). -/
def ConvBlock.call (ops : TensorOps T R) (cfg : ConvBlockCfg) (name : String)
    (mutableStats : Bool) (rng : R) (x0 : T) : T :=
  let shortcut := x0
  let x := ops.conv (name ++ "/Conv_0")
    { features := cfg.oup, kernel := (cfg.kernel, cfg.kernel),
      strides := (cfg.stride, cfg.stride), feature_group_count := cfg.groups,
      use_bias := false } x0
  let x := if cfg.dropout != 0 then
      nnDropout ops cfg.dropout (!mutableStats) (ops.foldRng rng (name ++ "/Dropout_0")) x
    else x
  let x := ops.batchNorm (name ++ "/BatchNorm_0") (!mutableStats) x
  let x := if cfg.act then ops.silu x else x
  if cfg.has_skip then ops.add x shortcut else x

/-- Attributes of `SELayer`. -/
structure SELayerCfg where
  inp : ℕ
  oup : ℕ
  reduction : ℕ := 4
deriving DecidableEq

/-- Source `SELayer.__call__`: `x * sigmoid(conv(silu(conv(x))))`, the first
conv reducing to `_make_divisible(inp // reduction, 4)` channels. -/
def SELayer.call (ops : TensorOps T R) (cfg : SELayerCfg) (name : String) (x : T) : T :=
  let features := SELayer.features cfg.inp cfg.reduction
  let y := ops.silu (ops.conv (name ++ "/Conv_0")
    { features := features, kernel := (1, 1) } x)
  let y := ops.sigmoid (ops.conv (name ++ "/Conv_1")
    { features := cfg.oup, kernel := (1, 1) } y)
  ops.mul x y

/-- Source `DropBlock.__call__`: in mutable (training) mode a bernoulli
draw zeroes or keeps the whole tensor; otherwise it scales by
`1 - dropblock_rate`. -/
def DropBlock.call (ops : TensorOps T R) (dropblock_rate : ℚ) (name : String)
    (mutableStats : Bool) (rng : R) (x : T) : T :=
  if mutableStats then ops.dropBlockMask dropblock_rate (ops.foldRng rng (name ++ "/dropout")) x
  else ops.smul (1 - dropblock_rate) x

/-- Attributes of `MBConv`. -/
structure MBConvCfg where
  inp : ℕ
  oup : ℕ
  stride : ℕ
  expand_ratio : ℚ
  use_se : Bool
  dropout : ℚ := 0
  dropblock : ℚ := 0
deriving DecidableEq

/-- What `MBConv.setup` computes once at construction. -/
structure MBConvState where
  strideOk : Bool
  hidden_dim : ℕ
  identity : Bool
deriving DecidableEq

/-- Source `MBConv.setup`: asserts `stride in [1, 2]`, computes
`hidden_dim = round(inp * expand_ratio)` and the identity-residual
condition `stride == 1 and inp == oup`. -/
def MBConv.setup (cfg : MBConvCfg) : MBConvState :=
  { strideOk := cfg.stride == 1 || cfg.stride == 2
    hidden_dim := (pyRound ((cfg.inp : ℚ) * cfg.expand_ratio)).toNat
    identity := cfg.stride == 1 && cfg.inp == cfg.oup }

/-- The `self.conv` sequential built in `MBConv.setup` (expand conv block,
depthwise conv block, squeeze-excitation, 1x1 projection when `use_se`). -/
def MBConv.convPath (ops : TensorOps T R) (cfg : MBConvCfg) (st : MBConvState)
    (name : String) (mutableStats : Bool) (rng : R) (x : T) : T :=
  if cfg.use_se then
    let x := ConvBlock.call ops
      { oup := st.hidden_dim, kernel := 1, stride := 1, dropout := cfg.dropout }
      (name ++ "/ConvBlock_0") mutableStats rng x
    let x := ConvBlock.call ops
      { oup := st.hidden_dim, kernel := 3, stride := cfg.stride,
        groups := st.hidden_dim, dropout := cfg.dropout }
      (name ++ "/ConvBlock_1") mutableStats rng x
    let x := SELayer.call ops { inp := cfg.inp, oup := st.hidden_dim }
      (name ++ "/SELayer_0") x
    ops.conv (name ++ "/Conv_0")
      { features := cfg.oup, kernel := (1, 1), use_bias := false } x
  else
    let x := ConvBlock.call ops
      { oup := st.hidden_dim, kernel := 3, stride := cfg.stride, dropout := cfg.dropout }
      (name ++ "/ConvBlock_0") mutableStats rng x
    ops.conv (name ++ "/Conv_0")
      { features := cfg.oup, kernel := (1, 1), use_bias := false } x

/-- Source `MBConv.__call__`: residual add on the identity branch, with the
DropBlock wrapper only when `dropblock != 0`. -/
def MBConv.call (ops : TensorOps T R) (cfg : MBConvCfg) (name : String)
    (mutableStats : Bool) (rng : R) (x : T) : T :=
  let st := MBConv.setup cfg
  if st.identity then
    if cfg.dropblock != 0 then
      ops.add x (DropBlock.call ops cfg.dropblock (name ++ "/DropBlock_0") mutableStats rng
        (ops.batchNorm (name ++ "/BatchNorm_0") (!mutableStats)
          (MBConv.convPath ops cfg st name mutableStats rng x)))
    else
      ops.add x (ops.batchNorm (name ++ "/BatchNorm_0") (!mutableStats)
        (MBConv.convPath ops cfg st name mutableStats rng x))
  else
    ops.batchNorm (name ++ "/BatchNorm_0") (!mutableStats)
      (MBConv.convPath ops cfg st name mutableStats rng x)

/-- Attributes of `Encoder1DBlock`. -/
structure Encoder1DBlockCfg where
  mlp_dim : ℕ
  num_heads : ℕ
  dropout_rate : ℚ := 1/10
  attention_dropout_rate : ℚ := 1/10
deriving DecidableEq

/-- The `MBConv` configuration of the two blocks on the attention branch of
`Encoder1DBlock.__call__` (lines 138-139):
`MBConv(inp=hidden_size, oup=hidden_size, stride=1, expand_ratio=1.0, use_se=True)`. -/
def Encoder1DBlock.mbAttnCfg (hidden_size : ℕ) : MBConvCfg :=
  { inp := hidden_size, oup := hidden_size, stride := 1, expand_ratio := 1, use_se := true }

/-- The `MBConv` configuration of the two blocks on the MLP branch of
`Encoder1DBlock.__call__` (lines 154-155):
`MBConv(inp=mlp_dim, oup=mlp_dim, stride=1, expand_ratio=1.0, use_se=True)`. -/
def Encoder1DBlock.mbMlpCfg (mlp_dim : ℕ) : MBConvCfg :=
  { inp := mlp_dim, oup := mlp_dim, stride := 1, expand_ratio := 1, use_se := true }

/-- Source `Encoder1DBlock.__call__` dataflow (its rank-3 assert is modelled
by `Encoder1DBlock.ndimCheck`): two MBConv blocks, layer norm, multi-head
self-attention, dropout, residual add of the block input; then layer norm,
two MBConv blocks, MlpBlock, and the final residual add. -/
def Encoder1DBlock.call (ops : TensorOps T R) (cfg : Encoder1DBlockCfg) (name : String)
    (mutableStats : Bool) (rng : R) (inputs : T) (deterministic : Bool)
    (hidden_size : ℕ) : T :=
  let x := MBConv.call ops (Encoder1DBlock.mbAttnCfg hidden_size)
    (name ++ "/MBConv_0") mutableStats rng inputs
  let x := MBConv.call ops (Encoder1DBlock.mbAttnCfg hidden_size)
    (name ++ "/MBConv_1") mutableStats rng x
  let x := ops.layerNorm (name ++ "/LayerNorm_0") x
  let x := ops.attention (name ++ "/MultiHeadDotProductAttention_0") cfg.num_heads
    cfg.attention_dropout_rate
    (if deterministic then none
     else some (ops.foldRng rng (name ++ "/MultiHeadDotProductAttention_0"))) x
  let x := nnDropout ops cfg.dropout_rate deterministic
    (ops.foldRng rng (name ++ "/Dropout_0")) x
  let x := ops.add x inputs
  let y := ops.layerNorm (name ++ "/LayerNorm_1") x
  let y := MBConv.call ops (Encoder1DBlock.mbMlpCfg cfg.mlp_dim)
    (name ++ "/MBConv_2") mutableStats rng y
  let y := MBConv.call ops (Encoder1DBlock.mbMlpCfg cfg.mlp_dim)
    (name ++ "/MBConv_3") mutableStats rng y
  let y := MlpBlock.call ops { mlp_dim := cfg.mlp_dim, dropout_rate := cfg.dropout_rate }
    (name ++ "/MlpBlock_0") hidden_size rng y deterministic
  ops.add x y

/-- Attributes of `Encoder` (also the contents of the `transformer`
configuration dict splatted into it). -/
structure EncoderCfg where
  num_layers : ℕ
  mlp_dim : ℕ
  num_heads : ℕ
  dropout_rate : ℚ := 1/10
  attention_dropout_rate : ℚ := 1/10
  add_position_embedding : Bool := true
deriving DecidableEq

/-- Source `Encoder.__call__` dataflow (its bare rank-3 assert is modelled by
`Encoder.ndimCheck`): positional embedding and dropout, `num_layers` stacked
`Encoder1DBlock`s named `encoderblock_{lyr}`, and the final `encoder_norm`. -/
def Encoder.call (ops : TensorOps T R) (cfg : EncoderCfg) (name : String)
    (mutableStats : Bool) (rng : R) (x0 : T) (train : Bool) (hidden_size : ℕ) : T :=
  let x := if cfg.add_position_embedding then
      nnDropout ops cfg.dropout_rate (!train) (ops.foldRng rng (name ++ "/Dropout_0"))
        (AddPositionEmbs.call ops (name ++ "/posembed_input") x0)
    else x0
  let x := (List.range cfg.num_layers).foldl (fun acc lyr =>
      Encoder1DBlock.call ops
        { mlp_dim := cfg.mlp_dim, num_heads := cfg.num_heads,
          dropout_rate := cfg.dropout_rate,
          attention_dropout_rate := cfg.attention_dropout_rate }
        (name ++ "/encoderblock_" ++ toString lyr) mutableStats rng acc (!train)
        hidden_size) x
  ops.layerNorm (name ++ "/encoder_norm") x

/-- The `resnet` configuration of `VisionTransformer` (`width_factor`,
`num_layers`); the stages themselves live in the external `models_resnet`
module and are abstract (`TensorOps.stdConv`, `TensorOps.resnetStage`). -/
structure ResNetCfg where
  width_factor : ℚ
  num_layers : List ℕ
deriving DecidableEq

/-- Attributes of `VisionTransformer`. -/
structure VisionTransformerCfg where
  num_classes : ℕ
  patches_size : ℕ × ℕ
  transformer : Option EncoderCfg
  hidden_size : ℕ
  resnet : Option ResNetCfg := none
  representation_size : Option ℕ := none
  classifier : String := "token"
deriving DecidableEq

/-- The computation stages of `VisionTransformer.__call__`, in the order the
Python statements execute. -/
inductive Stage where
  | resnetRoot
  | patchEmbed
  | reshape
  | clsToken
  | encoder
  | pool
  | preLogits
  | head
deriving DecidableEq

/-- The classifier dispatch of `VisionTransformer.__call__` (lines 404-411):
`token` takes `x[:, 0]`, `gap` the token mean, `unpooled`/`token_unpooled`
pass through, anything else raises `ValueError(f'Invalid classifier={c}')`. -/
def classifierPool (ops : TensorOps T R) (classifier : String) (x : T) :
    Except String T :=
  if classifier = "token" then .ok (ops.index0 x)
  else if classifier = "gap" then .ok (ops.meanTokens x)
  else if classifier ∈ (["unpooled", "token_unpooled"] : List String) then .ok x
  else .error ("Invalid classifier=" ++ classifier)

/-- The optional ResNet root of `VisionTransformer.__call__`:
`StdConv` root, group norm, relu, max pool, then the stages with doubling
width.  The stage bodies are external (`models_resnet`), hence abstract. -/
def VisionTransformer.resnetRoot (ops : TensorOps T R) (r : ResNetCfg) (x0 : T) : T :=
  let width := (Int.floor ((64 : ℚ) * r.width_factor)).toNat
  let x := ops.stdConv "conv_root"
    { features := width, kernel := (7, 7), strides := (2, 2), use_bias := false } x0
  let x := ops.groupNorm "gn_root" x
  let x := ops.relu x
  let x := ops.maxPool x
  match r.num_layers with
  | [] => x
  | b :: rest =>
    let x := ops.resnetStage "block1" b width x
    (rest.enumFrom 1).foldl (fun acc p =>
      ops.resnetStage ("block" ++ toString (p.1 + 1)) p.2 (width * 2 ^ p.1) acc) x

/-- The token-sequence value of `VisionTransformer.__call__` just before the
classifier dispatch: optional ResNet root, embedding convolution, then (when
a transformer is configured) the reshape to tokens, the optional class-token
tile/concatenate, and the encoder. -/
def VisionTransformer.prePool (ops : TensorOps T R) (cfg : VisionTransformerCfg)
    (mutableStats : Bool) (rng : R) (inputs : T) (train : Bool) : T :=
  let x := match cfg.resnet with
    | some r => VisionTransformer.resnetRoot ops r inputs
    | none => inputs
  let x := ops.conv "embedding"
    { features := cfg.hidden_size, kernel := cfg.patches_size,
      strides := cfg.patches_size, padding_valid := true } x
  match cfg.transformer with
  | some tcfg =>
    let x := ops.reshapeTokens x
    let x :=
      if cfg.classifier ∈ (["token", "token_unpooled"] : List String) then
        ops.concatSeq (ops.tileBatch (ops.param "cls")) x
      else x
    Encoder.call ops tcfg "Transformer" mutableStats rng x train cfg.hidden_size
  | none => x

/-- The stages of `VisionTransformer.__call__` that have executed when the
classifier dispatch runs, in Python statement order. -/
def VisionTransformer.stagesBeforePool (cfg : VisionTransformerCfg) : List Stage :=
  (match cfg.resnet with
    | some _ => [Stage.resnetRoot]
    | none => []) ++
  [Stage.patchEmbed] ++
  (match cfg.transformer with
    | some _ => Stage.reshape ::
        (if cfg.classifier ∈ (["token", "token_unpooled"] : List String)
          then [Stage.clsToken] else []) ++ [Stage.encoder]
    | none => [])

/-- Lines 413-424 of `VisionTransformer.__call__`: the optional
`pre_logits` representation dense with tanh (or the named identity), and
the `head` dense when `num_classes` is nonzero. -/
def VisionTransformer.headPart (ops : TensorOps T R) (cfg : VisionTransformerCfg)
    (x : T) : T :=
  let x := match cfg.representation_size with
    | some rs => ops.tanh (ops.dense "pre_logits" rs x)
    | none => IdentityLayer.call x
  if cfg.num_classes != 0 then ops.dense "head" cfg.num_classes x else x

/-- Source `VisionTransformer.__call__`.  The returned list records, in
Python statement order, the stages that execute before the call returns or
raises; the classifier dispatch is the only raising statement and runs after
the embedding convolution (and the encoder, when a transformer is
configured). -/
def VisionTransformer.call (ops : TensorOps T R) (cfg : VisionTransformerCfg)
    (mutableStats : Bool) (rng : R) (inputs : T) (train : Bool) :
    List Stage × Except String T :=
  let pre := VisionTransformer.stagesBeforePool cfg
  match classifierPool ops cfg.classifier
      (VisionTransformer.prePool ops cfg mutableStats rng inputs train) with
  | .error e => (pre, .error e)
  | .ok x =>
    (pre ++ [Stage.pool, Stage.preLogits] ++
      (if cfg.num_classes != 0 then [Stage.head] else []),
      .ok (VisionTransformer.headPart ops cfg x))

/-! ## Syntactic instantiation: the operation graph a call builds -/

/-- Tensor expressions: one constructor per abstract operation.  Running the
forward pass over `exprOps` records the exact graph of framework-layer
applications the Python call would build. -/
inductive TExpr where
  | input
  | conv (name : String) (cfg : ConvCfg) (x : TExpr)
  | stdConv (name : String) (cfg : ConvCfg) (x : TExpr)
  | dense (name : String) (features : ℕ) (x : TExpr)
  | layerNorm (name : String) (x : TExpr)
  | batchNorm (name : String) (useRunningAverage : Bool) (x : TExpr)
  | groupNorm (name : String) (x : TExpr)
  | attention (name : String) (num_heads : ℕ) (rate : ℚ) (rng : Option ℕ) (x : TExpr)
  | dropoutMask (rate : ℚ) (rng : ℕ) (x : TExpr)
  | dropBlockMask (rate : ℚ) (rng : ℕ) (x : TExpr)
  | gelu (x : TExpr)
  | silu (x : TExpr)
  | sigmoid (x : TExpr)
  | tanh (x : TExpr)
  | relu (x : TExpr)
  | add (x y : TExpr)
  | mul (x y : TExpr)
  | smul (c : ℚ) (x : TExpr)
  | maxPool (x : TExpr)
  | reshapeTokens (x : TExpr)
  | tileBatch (x : TExpr)
  | concatSeq (x y : TExpr)
  | index0 (x : TExpr)
  | meanTokens (x : TExpr)
  | param (name : String)
  | resnetStage (name : String) (block_size nout : ℕ) (x : TExpr)
deriving DecidableEq

/-- The syntactic `TensorOps` instance over `TExpr` (rng keys are plain
naturals; key folding is irrelevant to the recorded graph). -/
def exprOps : TensorOps TExpr ℕ :=
  { conv := .conv, stdConv := .stdConv, dense := .dense, layerNorm := .layerNorm,
    batchNorm := .batchNorm, groupNorm := .groupNorm, attention := .attention,
    dropoutMask := .dropoutMask, dropBlockMask := .dropBlockMask,
    gelu := .gelu, silu := .silu, sigmoid := .sigmoid, tanh := .tanh, relu := .relu,
    add := .add, mul := .mul, smul := .smul, maxPool := .maxPool,
    reshapeTokens := .reshapeTokens, tileBatch := .tileBatch,
    concatSeq := .concatSeq, index0 := .index0, meanTokens := .meanTokens,
    param := .param, resnetStage := .resnetStage, foldRng := fun r _ => r }

/-- Whether a recorded graph contains a DropBlock application. -/
def TExpr.hasDropBlock : TExpr → Bool
  | .input => false
  | .conv _ _ x => x.hasDropBlock
  | .stdConv _ _ x => x.hasDropBlock
  | .dense _ _ x => x.hasDropBlock
  | .layerNorm _ x => x.hasDropBlock
  | .batchNorm _ _ x => x.hasDropBlock
  | .groupNorm _ x => x.hasDropBlock
  | .attention _ _ _ _ x => x.hasDropBlock
  | .dropoutMask _ _ x => x.hasDropBlock
  | .dropBlockMask _ _ _ => true
  | .gelu x => x.hasDropBlock
  | .silu x => x.hasDropBlock
  | .sigmoid x => x.hasDropBlock
  | .tanh x => x.hasDropBlock
  | .relu x => x.hasDropBlock
  | .add x y => x.hasDropBlock || y.hasDropBlock
  | .mul x y => x.hasDropBlock || y.hasDropBlock
  | .smul _ x => x.hasDropBlock
  | .maxPool x => x.hasDropBlock
  | .reshapeTokens x => x.hasDropBlock
  | .tileBatch x => x.hasDropBlock
  | .concatSeq x y => x.hasDropBlock || y.hasDropBlock
  | .index0 x => x.hasDropBlock
  | .meanTokens x => x.hasDropBlock
  | .param _ => false
  | .resnetStage _ _ _ x => x.hasDropBlock

/-- Lift `TExpr.hasDropBlock` through the forward pass result. -/
def exceptHasDropBlock : Except String TExpr → Bool
  | .ok e => e.hasDropBlock
  | .error _ => false

/-! ## Channel-width semantics (NumPy broadcasting on the feature axis) -/

/-- NumPy broadcast of one axis: equal extents, or one of them 1. -/
def broadcastW (a b : ℕ) : Option ℕ :=
  if a = b then some a
  else if a = 1 then some b
  else if b = 1 then some a
  else none

/-- Channel width after a convolution: any input width maps to `features`,
subject to the grouped-convolution constraint that `feature_group_count`
divides the input channel count. -/
def convW (features groups w : ℕ) : Option ℕ :=
  if w % groups = 0 then some features else none

/-- Channel width after a dense layer: the projection accepts any input
width. -/
def denseW (features w : ℕ) : Option ℕ := some features

/-- Channel width through multi-head attention with default
`qkv_features`/`out_features`: requires the width to split across the heads
and returns the same width. -/
def attentionW (num_heads w : ℕ) : Option ℕ :=
  if w % num_heads = 0 then some w else none

/-- Channel width through `ConvBlock.__call__` (dropout, batch norm and the
activation preserve width; the skip add broadcasts). -/
def ConvBlock.width (cfg : ConvBlockCfg) (w : ℕ) : Option ℕ := do
  let x ← convW cfg.oup cfg.groups w
  if cfg.has_skip then broadcastW x w else pure x

/-- Channel width through `SELayer.__call__`: the elementwise `x * y`
broadcasts the input width against the excitation width. -/
def SELayer.width (cfg : SELayerCfg) (w : ℕ) : Option ℕ := do
  let y ← convW (SELayer.features cfg.inp cfg.reduction) 1 w
  let y ← convW cfg.oup 1 y
  broadcastW w y

/-- Channel width through `MBConv.__call__`: the convolutional path, then
the identity-residual add (a broadcast of the input width against the path
output width) exactly when `setup` stored `identity`. -/
def MBConv.width (cfg : MBConvCfg) (w : ℕ) : Option ℕ := do
  let st := MBConv.setup cfg
  let p ← if cfg.use_se then do
      let a ← ConvBlock.width
        { oup := st.hidden_dim, kernel := 1, stride := 1, dropout := cfg.dropout } w
      let a ← ConvBlock.width
        { oup := st.hidden_dim, kernel := 3, stride := cfg.stride,
          groups := st.hidden_dim, dropout := cfg.dropout } a
      let a ← SELayer.width { inp := cfg.inp, oup := st.hidden_dim } a
      convW cfg.oup 1 a
    else do
      let a ← ConvBlock.width
        { oup := st.hidden_dim, kernel := 3, stride := cfg.stride,
          dropout := cfg.dropout } w
      convW cfg.oup 1 a
  if st.identity then broadcastW w p else pure p

/-- Channel width through `MlpBlock.__call__`: the second dense projects to
`out_dim` or, when absent, to the runtime `inputs.shape[-1]` of the block. -/
def MlpBlock.width (out_dim : Option ℕ) (mlp_dim w : ℕ) : Option ℕ := do
  let actual_out_dim := out_dim.getD w
  let x ← denseW mlp_dim w
  denseW actual_out_dim x

/-- Channel width through `Encoder1DBlock.__call__` (layer norms and
dropout preserve width; the two residual adds broadcast). -/
def Encoder1DBlock.width (cfg : Encoder1DBlockCfg) (hidden_size w : ℕ) : Option ℕ := do
  let a ← MBConv.width (Encoder1DBlock.mbAttnCfg hidden_size) w
  let a ← MBConv.width (Encoder1DBlock.mbAttnCfg hidden_size) a
  let a ← attentionW cfg.num_heads a
  let x ← broadcastW a w
  let y ← MBConv.width (Encoder1DBlock.mbMlpCfg cfg.mlp_dim) x
  let y ← MBConv.width (Encoder1DBlock.mbMlpCfg cfg.mlp_dim) y
  let y ← MlpBlock.width none cfg.mlp_dim y
  broadcastW x y

/-- Channel width through `Encoder.__call__` (the positional embedding is
created with the input's own shape, and `encoder_norm` preserves width). -/
def Encoder.width (cfg : EncoderCfg) (hidden_size w : ℕ) : Option ℕ :=
  (List.range cfg.num_layers).foldl (fun acc _ => acc >>= fun ww =>
      Encoder1DBlock.width
        { mlp_dim := cfg.mlp_dim, num_heads := cfg.num_heads,
          dropout_rate := cfg.dropout_rate,
          attention_dropout_rate := cfg.attention_dropout_rate }
        hidden_size ww)
    (some w)

/-- Channel width through `VisionTransformer.__call__` for a valid
classifier: the embedding convolution maps any input width to
`hidden_size`; the class token is created with the running width so its
concatenation preserves width; then the encoder, pooling, the optional
representation dense and the head. -/
def VisionTransformer.width (cfg : VisionTransformerCfg) (c : ℕ) : Option ℕ := do
  let c := match cfg.resnet with
    | none => c
    | some r =>
      let width := (Int.floor ((64 : ℚ) * r.width_factor)).toNat
      match r.num_layers with
      | [] => width
      | ls => width * 2 ^ (ls.length - 1)
  let c ← convW cfg.hidden_size 1 c
  let c ← match cfg.transformer with
    | some tcfg => Encoder.width tcfg cfg.hidden_size c
    | none => pure c
  let c ← if cfg.classifier ∈ (["token", "gap", "unpooled", "token_unpooled"] : List String)
    then pure c else none
  let c := match cfg.representation_size with
    | some rs => rs
    | none => c
  pure (if cfg.num_classes != 0 then cfg.num_classes else c)

/-! ## Concrete token-sequence semantics of the class-token lines -/

/-- `jnp.tile(cls, [n, 1, 1])` on a `(1, 1, c)` parameter, with a tensor of
shape `(b, s, c)` represented as a batch (list) of token sequences: the
single row of `cls` is repeated `n` times along the batch axis. -/
def jnpTileBatch {τ : Type} (n : ℕ) (cls : List (List τ)) : List (List τ) :=
  (List.replicate n cls).flatten

/-- `jnp.concatenate([a, b], axis=1)`: rowwise concatenation of the token
sequences. -/
def jnpConcatAxis1 {τ : Type} (a b : List (List τ)) : List (List τ) :=
  List.zipWith (fun r s => r ++ s) a b

/-- Lines 397-400 of `VisionTransformer.__call__` on concrete sequences:
the `(1, 1, c)` class parameter (single token `v`) is tiled across the
batch and concatenated at sequence position 0. -/
def clsTokenAugment {τ : Type} (v : τ) (x : List (List τ)) : List (List τ) :=
  jnpConcatAxis1 (jnpTileBatch x.length [[v]]) x

/-- `x[:, 0]` on concrete sequences: the entry at sequence position 0 of
each batch row. -/
def tokenPoolSeq {τ : Type} (x : List (List τ)) : List (Option τ) :=
  x.map List.head?

/-! ## Helper lemmas -/

theorem nnDropout_deterministic (ops : TensorOps T R) (rate : ℚ) (rng : R) (x : T) :
    nnDropout ops rate true rng x = x := by
  simp [nnDropout]

theorem make_divisible_unfold (v d : ℕ) :
    make_divisible v d none =
      if 10 * max d ((2 * v + d) / (2 * d) * d) < 9 * v
      then max d ((2 * v + d) / (2 * d) * d) + d
      else max d ((2 * v + d) / (2 * d) * d) := by
  unfold make_divisible
  rw [Nat.div_div_eq_div_mul]
  rfl

/-! ## Claim theorems -/

/-- Claim C4 (confirmed): for positive `v` and positive divisor `d`,
`_make_divisible(v, d)` with its default `min_value = d` returns a positive
multiple of `d`, at least the floor `d`, and never less than 90 percent of
`v` (exactly: `9 * v ≤ 10 * result`); and the reduction width of
`SELayer.__call__` is `_make_divisible(inp // reduction, 4)`. -/
theorem make_divisible_spec (v d : ℕ) (hv : 1 ≤ v) (hd : 1 ≤ d) :
    (d ∣ make_divisible v d none ∧ d ≤ make_divisible v d none ∧
      0 < make_divisible v d none ∧ 9 * v ≤ 10 * make_divisible v d none) ∧
    SELayer.features v d = make_divisible (v / d) 4 none := by
  refine ⟨?_, rfl⟩
  rw [make_divisible_unfold]
  set q := (2 * v + d) / (2 * d) with hqdef
  set r := (2 * v + d) % (2 * d) with hrdef
  have hmod : 2 * d * q + r = 2 * v + d := Nat.div_add_mod _ _
  have hrlt : r < 2 * d := Nat.mod_lt _ (by omega)
  have h2 : 2 * d * q = 2 * (q * d) := by ring
  have hlow : 2 * (q * d) + 2 * d ≥ 2 * v + d + 1 := by
    have hr1 : r ≤ 2 * d - 1 := by omega
    nlinarith [hmod, h2]
  have hdvd : d ∣ max d (q * d) := by
    rcases Nat.le_total d (q * d) with h | h
    · rw [max_eq_right h]; exact Dvd.intro_left q rfl
    · rw [max_eq_left h]
  have hle : d ≤ max d (q * d) := le_max_left _ _
  have hge : q * d ≤ max d (q * d) := le_max_right _ _
  split
  case isTrue hbump =>
    refine ⟨Nat.dvd_add hdvd dvd_rfl, by omega, by omega, ?_⟩
    nlinarith [hlow, hge]
  case isFalse hnobump =>
    exact ⟨hdvd, hle, by omega, by omega⟩

/-- Claim C4 witness at `v = 3`, `d = 4`. -/
theorem make_divisible_spec_witness :
    (4 ∣ make_divisible 3 4 none ∧ 4 ≤ make_divisible 3 4 none ∧
      0 < make_divisible 3 4 none ∧ 9 * 3 ≤ 10 * make_divisible 3 4 none) ∧
    SELayer.features 3 4 = make_divisible (3 / 4) 4 none :=
  make_divisible_spec 3 4 (by decide) (by decide)

/-- Claim C2 counterexample: height 10 is not divisible by patch size 3, yet
the VALID patch-embedding convolution does not fail: it yields a 3x3 grid
whose windows read only the first 9 of the 10 rows, silently discarding the
trailing row. -/
theorem patch_embed_no_failure_on_indivisible :
    ¬ (3 ∣ 10) ∧ patchEmbedGrid 10 9 3 3 = (3, 3) ∧
      consumedExtent 3 3 3 = 9 ∧ 9 < 10 := by decide

/-- Claim C2 amended: with `padding='VALID'` and stride equal to the kernel,
the patch embedding never fails: on an input with extents at least the patch
size it produces a `⌊h/p⌋ × ⌊w/p⌋` grid whose windows read exactly the first
`p * ⌊h/p⌋` rows, silently discarding the `h mod p` trailing rows whenever
`p` does not divide `h`; and when an extent is smaller than the patch size
the output extent is simply zero (an empty grid), the convolution still
succeeding. -/
theorem patch_embed_truncates (h w p : ℕ) (hp : 1 ≤ p) :
    (p ≤ h → p ≤ w →
      patchEmbedGrid h w p p = (h / p, w / p) ∧
      consumedExtent (h / p) p p = p * (h / p) ∧
      p * (h / p) + h % p = h ∧
      (¬ p ∣ h → p * (h / p) < h)) ∧
    (h < p → (patchEmbedGrid h w p p).1 = 0) := by
  constructor
  · intro hph hpw
    have hdim : ∀ s : ℕ, p ≤ s → validConvDim s p p = s / p := by
      intro s hs
      have hsum : p + (s - p) = s := by omega
      have hx := Nat.add_div_left (s - p) (show 0 < p by omega)
      rw [hsum] at hx
      have hdiv : s / p = (s - p) / p + 1 := by simpa [Nat.succ_eq_add_one] using hx
      simp [validConvDim, hs, hdiv]
    have hpos : 1 ≤ h / p := (Nat.one_le_div_iff (by omega)).mpr hph
    obtain ⟨k, hk⟩ : ∃ k, h / p = k + 1 := ⟨h / p - 1, by omega⟩
    have hmod := Nat.div_add_mod h p
    refine ⟨?_, ?_, ?_, ?_⟩
    · simp [patchEmbedGrid, hdim h hph, hdim w hpw]
    · rw [hk]; simp [consumedExtent]; ring
    · omega
    · intro hnd
      have : h % p ≠ 0 := fun hz => hnd (Nat.dvd_of_mod_eq_zero hz)
      omega
  · intro hlt
    simp [patchEmbedGrid, validConvDim, Nat.not_le.mpr hlt]

/-- Claim C2 witness at `h = 10`, `w = 7`, `p = 3`. -/
theorem patch_embed_truncates_witness :
    (3 ≤ 10 → 3 ≤ 7 →
      patchEmbedGrid 10 7 3 3 = (10 / 3, 7 / 3) ∧
      consumedExtent (10 / 3) 3 3 = 3 * (10 / 3) ∧
      3 * (10 / 3) + 10 % 3 = 10 ∧
      (¬ 3 ∣ 10 → 3 * (10 / 3) < 10)) ∧
    (10 < 3 → (patchEmbedGrid 10 7 3 3).1 = 0) :=
  patch_embed_truncates 10 7 3 (by decide)

/-- Claim C3 counterexample: a rank-2 input does make all three sites fail,
but the `Encoder` site is the bare `assert x.ndim == 3`: its AssertionError
carries no message at all, hence no message naming the actual shape, while
the `AddPositionEmbs` site does name the dimensionality. -/
theorem encoder_rank_assert_has_no_message :
    Encoder.ndimCheck 2 = Except.error none ∧
    Encoder.assertMsg = none ∧
    AddPositionEmbs.ndimCheck 2 =
      Except.error (some "Number of dimensions should be 3, but it is: 2") := by
  exact ⟨rfl, rfl, rfl⟩

/-- Claim C3 amended: each of the three sites fails fast exactly on
non-rank-3 input; the `AddPositionEmbs` message names the offending
dimensionality and the `Encoder1DBlock` message names the offending shape,
but the `Encoder` site is a bare assert whose error carries no message. -/
theorem rank_guards_fail_fast (ndim : ℕ) (shape : List ℕ)
    (h : ndim ≠ 3) (hs : shape.length ≠ 3) :
    AddPositionEmbs.ndimCheck ndim =
      Except.error (some ("Number of dimensions should be 3, but it is: " ++ toString ndim)) ∧
    Encoder1DBlock.ndimCheck shape =
      Except.error (some ("Expected (batch, seq, hidden) got " ++ pyShapeStr shape)) ∧
    Encoder.ndimCheck ndim = Except.error none ∧
    AddPositionEmbs.ndimCheck 3 = Except.ok () ∧
    Encoder1DBlock.ndimCheck [2, 5, 8] = Except.ok () ∧
    Encoder.ndimCheck 3 = Except.ok () := by
  refine ⟨?_, ?_, ?_, rfl, rfl, rfl⟩
  · simp [AddPositionEmbs.ndimCheck, AddPositionEmbs.assertMsg, h]
  · simp [Encoder1DBlock.ndimCheck, Encoder1DBlock.assertMsg, hs]
  · simp [Encoder.ndimCheck, Encoder.assertMsg, h]

/-- Claim C3 witness at `ndim = 2`, `shape = [2, 5]`. -/
theorem rank_guards_fail_fast_witness :
    AddPositionEmbs.ndimCheck 2 =
      Except.error (some ("Number of dimensions should be 3, but it is: " ++ toString 2)) ∧
    Encoder1DBlock.ndimCheck [2, 5] =
      Except.error (some ("Expected (batch, seq, hidden) got " ++ pyShapeStr [2, 5])) ∧
    Encoder.ndimCheck 2 = Except.error none ∧
    AddPositionEmbs.ndimCheck 3 = Except.ok () ∧
    Encoder1DBlock.ndimCheck [2, 5, 8] = Except.ok () ∧
    Encoder.ndimCheck 3 = Except.ok () :=
  rank_guards_fail_fast 2 [2, 5] (by decide) (by decide)

/-- Claim C1 counterexample: with classifier "max" the forward call does
raise `Invalid classifier=max`, but not before tensor computation: at the
moment of the raise the executed-stage trace already contains the
patch-embedding convolution and the encoder. -/
theorem invalid_classifier_after_compute_cex :
    VisionTransformer.call exprOps
        { num_classes := 2, patches_size := (4, 4),
          transformer := some { num_layers := 0, mlp_dim := 8, num_heads := 2 },
          hidden_size := 8, classifier := "max" }
        false 0 TExpr.input false =
      ([Stage.patchEmbed, Stage.reshape, Stage.encoder],
        Except.error "Invalid classifier=max") ∧
    Stage.patchEmbed ∈ [Stage.patchEmbed, Stage.reshape, Stage.encoder] ∧
    Stage.encoder ∈ [Stage.patchEmbed, Stage.reshape, Stage.encoder] := by
  refine ⟨?_, by decide, by decide⟩
  simp [VisionTransformer.call, VisionTransformer.prePool,
    VisionTransformer.stagesBeforePool, classifierPool, Encoder.call,
    AddPositionEmbs.call, nnDropout, exprOps]

/-- Claim C1 amended: for every configuration with a transformer and a
classifier string outside token/gap/unpooled/token_unpooled, the forward
call fails with a ValueError naming the classifier — but the error is
raised at the pooling dispatch, after the patch-embedding convolution and
the encoder have already executed, not before tensor computation. -/
theorem invalid_classifier_error_after_stages (ops : TensorOps T R)
    (cfg : VisionTransformerCfg) (t : EncoderCfg) (mutableStats train : Bool)
    (rng : R) (x : T)
    (ht : cfg.transformer = some t)
    (hc : cfg.classifier ∉ (["token", "gap", "unpooled", "token_unpooled"] : List String)) :
    (VisionTransformer.call ops cfg mutableStats rng x train).2 =
      Except.error ("Invalid classifier=" ++ cfg.classifier) ∧
    Stage.patchEmbed ∈ (VisionTransformer.call ops cfg mutableStats rng x train).1 ∧
    Stage.encoder ∈ (VisionTransformer.call ops cfg mutableStats rng x train).1 := by
  obtain ⟨h1, h2, h3, h4⟩ :
      ¬cfg.classifier = "token" ∧ ¬cfg.classifier = "gap" ∧
        ¬cfg.classifier = "unpooled" ∧ ¬cfg.classifier = "token_unpooled" := by
    simpa [not_or] using hc
  cases hr : cfg.resnet <;>
    simp [VisionTransformer.call, VisionTransformer.stagesBeforePool, classifierPool,
      ht, hr, h1, h2, h3, h4]

/-- Claim C1 witness: the amended theorem applied at a concrete
configuration with classifier "max". -/
theorem invalid_classifier_error_after_stages_witness :
    (VisionTransformer.call exprOps
        { num_classes := 2, patches_size := (4, 4),
          transformer := some { num_layers := 1, mlp_dim := 8, num_heads := 2 },
          hidden_size := 8, classifier := "max" }
        true 0 TExpr.input true).2 =
      Except.error ("Invalid classifier=" ++ "max") ∧
    Stage.patchEmbed ∈ (VisionTransformer.call exprOps
        { num_classes := 2, patches_size := (4, 4),
          transformer := some { num_layers := 1, mlp_dim := 8, num_heads := 2 },
          hidden_size := 8, classifier := "max" }
        true 0 TExpr.input true).1 ∧
    Stage.encoder ∈ (VisionTransformer.call exprOps
        { num_classes := 2, patches_size := (4, 4),
          transformer := some { num_layers := 1, mlp_dim := 8, num_heads := 2 },
          hidden_size := 8, classifier := "max" }
        true 0 TExpr.input true).1 :=
  invalid_classifier_error_after_stages exprOps _ _ true true 0 TExpr.input rfl
    (by simp)



/-- Claim C5 counterexample: an `MBConv` with `dropblock = 1/2` satisfies the
identity condition, yet in training mode its output is not the input plus
the batch-normalized convolutional-path output: the DropBlock wrapper sits
in between, so the claim's equation fails as stated. -/
theorem mbconv_dropblock_breaks_plain_residual :
    (MBConv.setup { inp := 1, oup := 1, stride := 1, expand_ratio := 1,
                    use_se := true, dropblock := 1/2 }).identity = true ∧
    MBConv.call exprOps { inp := 1, oup := 1, stride := 1, expand_ratio := 1,
                          use_se := true, dropblock := 1/2 } "mb" true 0 TExpr.input ≠
      TExpr.add TExpr.input (TExpr.batchNorm "mb/BatchNorm_0" false
        (MBConv.convPath exprOps
          { inp := 1, oup := 1, stride := 1, expand_ratio := 1,
            use_se := true, dropblock := 1/2 }
          (MBConv.setup { inp := 1, oup := 1, stride := 1, expand_ratio := 1,
                          use_se := true, dropblock := 1/2 }) "mb" true 0 TExpr.input)) := by
  refine ⟨rfl, fun h => ?_⟩
  have h2 := congrArg TExpr.hasDropBlock h
  norm_num [MBConv.call, MBConv.setup, MBConv.convPath, ConvBlock.call,
    SELayer.call, DropBlock.call, nnDropout, TExpr.hasDropBlock, exprOps] at h2

/-- Claim C5 amended: for every `MBConv` whose `dropblock` rate is 0 (the
default, used at all four construction sites in this file), the residual
connection is added exactly when `stride = 1` and `inp = oup` — a condition
`setup` computes once at construction — and on the identity branch the
output is the input plus the batch-normalized convolutional-path output,
i.e. it differs from the non-identity branch only by the identity addition.
With a nonzero `dropblock` rate the identity branch additionally routes the
path through DropBlock. -/
theorem mbconv_identity_residual (ops : TensorOps T R) (cfg : MBConvCfg)
    (name : String) (mutableStats : Bool) (rng : R) (x : T)
    (hdb : cfg.dropblock = 0) :
    ((MBConv.setup cfg).identity = true ↔ (cfg.stride = 1 ∧ cfg.inp = cfg.oup)) ∧
    ((MBConv.setup cfg).identity = true →
      MBConv.call ops cfg name mutableStats rng x =
        ops.add x (ops.batchNorm (name ++ "/BatchNorm_0") (!mutableStats)
          (MBConv.convPath ops cfg (MBConv.setup cfg) name mutableStats rng x))) ∧
    ((MBConv.setup cfg).identity = false →
      MBConv.call ops cfg name mutableStats rng x =
        ops.batchNorm (name ++ "/BatchNorm_0") (!mutableStats)
          (MBConv.convPath ops cfg (MBConv.setup cfg) name mutableStats rng x)) := by
  refine ⟨by simp [MBConv.setup], ?_, ?_⟩
  · intro hid
    simp [MBConv.call, hid, hdb]
  · intro hid
    simp [MBConv.call, hid]

/-- Claim C5 witness: the amended theorem applied to the attention-branch
block configuration at `hidden_size = 4` over the syntactic ops. -/
theorem mbconv_identity_residual_witness :
    (((MBConv.setup (Encoder1DBlock.mbAttnCfg 4)).identity = true ↔
        ((Encoder1DBlock.mbAttnCfg 4).stride = 1 ∧
          (Encoder1DBlock.mbAttnCfg 4).inp = (Encoder1DBlock.mbAttnCfg 4).oup)) ∧
      ((MBConv.setup (Encoder1DBlock.mbAttnCfg 4)).identity = true →
        MBConv.call exprOps (Encoder1DBlock.mbAttnCfg 4) "mb" false 0 TExpr.input =
          TExpr.add TExpr.input (TExpr.batchNorm ("mb" ++ "/BatchNorm_0") (!false)
            (MBConv.convPath exprOps (Encoder1DBlock.mbAttnCfg 4)
              (MBConv.setup (Encoder1DBlock.mbAttnCfg 4)) "mb" false 0 TExpr.input))) ∧
      ((MBConv.setup (Encoder1DBlock.mbAttnCfg 4)).identity = false →
        MBConv.call exprOps (Encoder1DBlock.mbAttnCfg 4) "mb" false 0 TExpr.input =
          TExpr.batchNorm ("mb" ++ "/BatchNorm_0") (!false)
            (MBConv.convPath exprOps (Encoder1DBlock.mbAttnCfg 4)
              (MBConv.setup (Encoder1DBlock.mbAttnCfg 4)) "mb" false 0 TExpr.input))) :=
  mbconv_identity_residual exprOps (Encoder1DBlock.mbAttnCfg 4) "mb" false 0
    TExpr.input rfl


theorem exprOps_conv : exprOps.conv = TExpr.conv := rfl

theorem exprOps_stdConv : exprOps.stdConv = TExpr.stdConv := rfl

theorem exprOps_dense : exprOps.dense = TExpr.dense := rfl

theorem exprOps_layerNorm : exprOps.layerNorm = TExpr.layerNorm := rfl

theorem exprOps_batchNorm : exprOps.batchNorm = TExpr.batchNorm := rfl

theorem exprOps_groupNorm : exprOps.groupNorm = TExpr.groupNorm := rfl

theorem exprOps_attention : exprOps.attention = TExpr.attention := rfl

theorem exprOps_dropoutMask : exprOps.dropoutMask = TExpr.dropoutMask := rfl

theorem exprOps_dropBlockMask : exprOps.dropBlockMask = TExpr.dropBlockMask := rfl

theorem exprOps_gelu : exprOps.gelu = TExpr.gelu := rfl

theorem exprOps_silu : exprOps.silu = TExpr.silu := rfl

theorem exprOps_sigmoid : exprOps.sigmoid = TExpr.sigmoid := rfl

theorem exprOps_tanh : exprOps.tanh = TExpr.tanh := rfl

theorem exprOps_relu : exprOps.relu = TExpr.relu := rfl

theorem exprOps_add : exprOps.add = TExpr.add := rfl

theorem exprOps_mul : exprOps.mul = TExpr.mul := rfl

theorem exprOps_smul : exprOps.smul = TExpr.smul := rfl

theorem exprOps_maxPool : exprOps.maxPool = TExpr.maxPool := rfl

theorem exprOps_reshapeTokens : exprOps.reshapeTokens = TExpr.reshapeTokens := rfl

theorem exprOps_tileBatch : exprOps.tileBatch = TExpr.tileBatch := rfl

theorem exprOps_concatSeq : exprOps.concatSeq = TExpr.concatSeq := rfl

theorem exprOps_index0 : exprOps.index0 = TExpr.index0 := rfl

theorem exprOps_meanTokens : exprOps.meanTokens = TExpr.meanTokens := rfl

theorem exprOps_param : exprOps.param = TExpr.param := rfl

theorem exprOps_resnetStage : exprOps.resnetStage = TExpr.resnetStage := rfl

theorem hasDropBlock_nnDropout (r : ℚ) (d : Bool) (k : ℕ) (x : TExpr) :
    (nnDropout exprOps r d k x).hasDropBlock = x.hasDropBlock := by
  unfold nnDropout
  split <;> simp [exprOps_dropoutMask, TExpr.hasDropBlock]

theorem hasDropBlock_convBlock (cfg : ConvBlockCfg) (nm : String) (ms : Bool)
    (k : ℕ) (x : TExpr) :
    (ConvBlock.call exprOps cfg nm ms k x).hasDropBlock = x.hasDropBlock := by
  simp [ConvBlock.call, hasDropBlock_nnDropout, exprOps_conv, exprOps_batchNorm,
    exprOps_silu, exprOps_add, TExpr.hasDropBlock, apply_ite TExpr.hasDropBlock]

theorem hasDropBlock_seLayer (cfg : SELayerCfg) (nm : String) (x : TExpr) :
    (SELayer.call exprOps cfg nm x).hasDropBlock = x.hasDropBlock := by
  simp [SELayer.call, exprOps_conv, exprOps_silu, exprOps_sigmoid, exprOps_mul,
    TExpr.hasDropBlock]

theorem hasDropBlock_mbconvPath (cfg : MBConvCfg) (st : MBConvState) (nm : String)
    (ms : Bool) (k : ℕ) (x : TExpr) :
    (MBConv.convPath exprOps cfg st nm ms k x).hasDropBlock = x.hasDropBlock := by
  simp [MBConv.convPath, ConvBlock.call, SELayer.call, hasDropBlock_nnDropout,
    exprOps_conv, exprOps_silu, exprOps_sigmoid, exprOps_mul, exprOps_batchNorm,
    exprOps_add, TExpr.hasDropBlock, apply_ite TExpr.hasDropBlock]

theorem hasDropBlock_mbconv (cfg : MBConvCfg) (nm : String) (ms : Bool) (k : ℕ)
    (x : TExpr) (h : cfg.dropblock = 0) :
    (MBConv.call exprOps cfg nm ms k x).hasDropBlock = x.hasDropBlock := by
  simp [MBConv.call, h, exprOps_add, exprOps_batchNorm, TExpr.hasDropBlock,
    hasDropBlock_mbconvPath, apply_ite TExpr.hasDropBlock]

theorem hasDropBlock_mlpBlock (cfg : MlpBlockCfg) (nm : String) (ld : ℕ) (k : ℕ)
    (x : TExpr) (det : Bool) :
    (MlpBlock.call exprOps cfg nm ld k x det).hasDropBlock = x.hasDropBlock := by
  simp [MlpBlock.call, exprOps_dense, exprOps_gelu, TExpr.hasDropBlock,
    hasDropBlock_nnDropout]

theorem hasDropBlock_encoderBlock (cfg : Encoder1DBlockCfg) (nm : String)
    (ms : Bool) (k : ℕ) (x : TExpr) (det : Bool) (hs : ℕ) :
    (Encoder1DBlock.call exprOps cfg nm ms k x det hs).hasDropBlock = x.hasDropBlock := by
  simp [Encoder1DBlock.call, exprOps_layerNorm, exprOps_attention, exprOps_add,
    TExpr.hasDropBlock, hasDropBlock_mbconv, hasDropBlock_mlpBlock,
    hasDropBlock_nnDropout, Encoder1DBlock.mbAttnCfg, Encoder1DBlock.mbMlpCfg]

theorem hasDropBlock_foldl {β : Type} (f : TExpr → β → TExpr)
    (hf : ∀ a b, (f a b).hasDropBlock = a.hasDropBlock) :
    ∀ (l : List β) (x : TExpr), (l.foldl f x).hasDropBlock = x.hasDropBlock := by
  intro l
  induction l with
  | nil => intro x; rfl
  | cons a t ih => intro x; rw [List.foldl_cons, ih, hf]

theorem hasDropBlock_encoder (cfg : EncoderCfg) (nm : String) (ms : Bool) (k : ℕ)
    (x : TExpr) (train : Bool) (hs : ℕ) :
    (Encoder.call exprOps cfg nm ms k x train hs).hasDropBlock = x.hasDropBlock := by
  have hfold := hasDropBlock_foldl
    (fun acc (lyr : ℕ) => Encoder1DBlock.call exprOps
      { mlp_dim := cfg.mlp_dim, num_heads := cfg.num_heads,
        dropout_rate := cfg.dropout_rate,
        attention_dropout_rate := cfg.attention_dropout_rate }
      (nm ++ "/encoderblock_" ++ toString lyr) ms k acc (!train) hs)
    (fun a b => hasDropBlock_encoderBlock _ _ _ _ a _ _)
  simp [Encoder.call, exprOps_layerNorm, exprOps_add, exprOps_param,
    TExpr.hasDropBlock, hfold, hasDropBlock_nnDropout, AddPositionEmbs.call,
    apply_ite TExpr.hasDropBlock]

theorem hasDropBlock_resnetRoot (r : ResNetCfg) (x : TExpr) :
    (VisionTransformer.resnetRoot exprOps r x).hasDropBlock = x.hasDropBlock := by
  unfold VisionTransformer.resnetRoot
  rcases hnl : r.num_layers with _ | ⟨b, rest⟩
  · simp [exprOps_stdConv, exprOps_groupNorm, exprOps_relu, exprOps_maxPool,
      TExpr.hasDropBlock]
  · have hfold := hasDropBlock_foldl
      (fun acc (p : ℕ × ℕ) => TExpr.resnetStage ("block" ++ toString (p.1 + 1)) p.2
        ((Int.floor ((64 : ℚ) * r.width_factor)).toNat * 2 ^ p.1) acc)
      (fun a b => by simp [TExpr.hasDropBlock])
    simp [exprOps_stdConv, exprOps_groupNorm, exprOps_relu, exprOps_maxPool,
      exprOps_resnetStage, TExpr.hasDropBlock, hfold]

theorem classifierPool_hasDropBlock (c : String) (v w : TExpr)
    (h : classifierPool exprOps c v = .ok w) : w.hasDropBlock = v.hasDropBlock := by
  unfold classifierPool at h
  split_ifs at h <;>
    first
      | exact Except.noConfusion h
      | (injection h with h2
         subst h2
         simp [exprOps_index0, exprOps_meanTokens, TExpr.hasDropBlock])

theorem hasDropBlock_prePool (cfg : VisionTransformerCfg) (ms : Bool) (k : ℕ)
    (x : TExpr) (train : Bool) (hx : x.hasDropBlock = false) :
    (VisionTransformer.prePool exprOps cfg ms k x train).hasDropBlock = false := by
  unfold VisionTransformer.prePool
  cases hr : cfg.resnet <;> cases ht : cfg.transformer <;>
    simp only [hasDropBlock_encoder] <;>
    simp [exprOps_conv, exprOps_reshapeTokens, exprOps_concatSeq, exprOps_tileBatch,
      exprOps_param, TExpr.hasDropBlock, hasDropBlock_resnetRoot,
      apply_ite TExpr.hasDropBlock, hx]

theorem hasDropBlock_vit (cfg : VisionTransformerCfg) (ms : Bool) (k : ℕ)
    (x : TExpr) (train : Bool) (hx : x.hasDropBlock = false) :
    exceptHasDropBlock (VisionTransformer.call exprOps cfg ms k x train).2 = false := by
  unfold VisionTransformer.call
  cases hpool : classifierPool exprOps cfg.classifier
      (VisionTransformer.prePool exprOps cfg ms k x train) with
  | error e => simp [exceptHasDropBlock]
  | ok w =>
    have hw : w.hasDropBlock = false :=
      (classifierPool_hasDropBlock _ _ _ hpool).trans
        (hasDropBlock_prePool cfg ms k x train hx)
    cases hrs : cfg.representation_size <;>
      simp [exceptHasDropBlock, VisionTransformer.headPart, IdentityLayer.call, hrs,
        exprOps_dense, exprOps_tanh, TExpr.hasDropBlock, hw,
        apply_ite TExpr.hasDropBlock]

/-- Claim C9 (confirmed): the four `MBConv` construction sites of
`Encoder1DBlock.__call__` all leave `dropblock` at its default 0; any
`MBConv` with `dropblock = 0` never applies DropBlock; and consequently no
forward call of `VisionTransformer` — whatever the configuration, rng,
training mode or batch-stats mutability — ever applies DropBlock. -/
theorem dropblock_never_invoked :
    (∀ hs m : ℕ, (Encoder1DBlock.mbAttnCfg hs).dropblock = 0 ∧
      (Encoder1DBlock.mbMlpCfg m).dropblock = 0) ∧
    (∀ (cfg : MBConvCfg) (nm : String) (ms : Bool) (k : ℕ) (x : TExpr),
      cfg.dropblock = 0 →
      (MBConv.call exprOps cfg nm ms k x).hasDropBlock = x.hasDropBlock) ∧
    (∀ (cfg : VisionTransformerCfg) (ms : Bool) (k : ℕ) (train : Bool),
      exceptHasDropBlock
        (VisionTransformer.call exprOps cfg ms k TExpr.input train).2 = false) :=
  ⟨fun _ _ => ⟨rfl, rfl⟩,
   fun cfg nm ms k x h => hasDropBlock_mbconv cfg nm ms k x h,
   fun cfg ms k train => hasDropBlock_vit cfg ms k TExpr.input train rfl⟩

/-- Claim C9 witness: the theorem's parts applied at concrete inputs. -/
theorem dropblock_never_invoked_witness :
    ((Encoder1DBlock.mbAttnCfg 8).dropblock = 0 ∧
      (Encoder1DBlock.mbMlpCfg 8).dropblock = 0) ∧
    (MBConv.call exprOps (Encoder1DBlock.mbMlpCfg 8) "mb" true 0
        TExpr.input).hasDropBlock = TExpr.input.hasDropBlock ∧
    exceptHasDropBlock (VisionTransformer.call exprOps
      { num_classes := 2, patches_size := (4, 4),
        transformer := some { num_layers := 1, mlp_dim := 8, num_heads := 2 },
        hidden_size := 8 } true 0 TExpr.input true).2 = false :=
  ⟨dropblock_never_invoked.1 8 8,
   dropblock_never_invoked.2.1 (Encoder1DBlock.mbMlpCfg 8) "mb" true 0 TExpr.input rfl,
   dropblock_never_invoked.2.2 _ true 0 true⟩

theorem dropBlock_eval_mode (ops : TensorOps T R) (r : ℚ) (nm : String) (rng : R)
    (x : T) : DropBlock.call ops r nm false rng x = ops.smul (1 - r) x := by
  simp [DropBlock.call]

theorem convBlock_rng_irrel (ops : TensorOps T R) (cfg : ConvBlockCfg) (nm : String)
    (rng rng2 : R) (x : T) :
    ConvBlock.call ops cfg nm false rng x = ConvBlock.call ops cfg nm false rng2 x := by
  simp [ConvBlock.call, nnDropout_deterministic]

theorem mbconv_rng_irrel (ops : TensorOps T R) (cfg : MBConvCfg) (nm : String)
    (rng rng2 : R) (x : T) :
    MBConv.call ops cfg nm false rng x = MBConv.call ops cfg nm false rng2 x := by
  simp [MBConv.call, MBConv.convPath, ConvBlock.call, SELayer.call, DropBlock.call,
    nnDropout_deterministic]

theorem encoderBlock_rng_irrel (ops : TensorOps T R) (cfg : Encoder1DBlockCfg)
    (nm : String) (rng rng2 : R) (x : T) (hs : ℕ) :
    Encoder1DBlock.call ops cfg nm false rng x true hs =
      Encoder1DBlock.call ops cfg nm false rng2 x true hs := by
  simp [Encoder1DBlock.call, MBConv.call, MBConv.convPath, ConvBlock.call,
    SELayer.call, DropBlock.call, MlpBlock.call, nnDropout_deterministic]

theorem encoder_rng_irrel (ops : TensorOps T R) (cfg : EncoderCfg) (nm : String)
    (rng rng2 : R) (x : T) (hs : ℕ) :
    Encoder.call ops cfg nm false rng x false hs =
      Encoder.call ops cfg nm false rng2 x false hs := by
  unfold Encoder.call
  simp only [Bool.not_false, nnDropout_deterministic]
  have hfold : ∀ (l : List ℕ) (y : T),
      List.foldl (fun acc lyr => Encoder1DBlock.call ops
        { mlp_dim := cfg.mlp_dim, num_heads := cfg.num_heads,
          dropout_rate := cfg.dropout_rate,
          attention_dropout_rate := cfg.attention_dropout_rate }
        (nm ++ "/encoderblock_" ++ toString lyr) false rng acc true hs) y l =
      List.foldl (fun acc lyr => Encoder1DBlock.call ops
        { mlp_dim := cfg.mlp_dim, num_heads := cfg.num_heads,
          dropout_rate := cfg.dropout_rate,
          attention_dropout_rate := cfg.attention_dropout_rate }
        (nm ++ "/encoderblock_" ++ toString lyr) false rng2 acc true hs) y l := by
    intro l
    induction l with
    | nil => intro y; rfl
    | cons a t ih =>
      intro y
      rw [List.foldl_cons, List.foldl_cons, encoderBlock_rng_irrel, ih]
  exact congrArg _ (hfold _ _)

/-- Claim C8 (confirmed): with `train = False` and the batch-statistics
collection immutable (fixed parameters and fixed running statistics), the
forward pass is independent of the rng — calling it twice on the same input
yields identical output — and `nn.Dropout` is the identity whenever
`deterministic` holds, whatever the rate and rng. -/
theorem vit_eval_deterministic (ops : TensorOps T R) (cfg : VisionTransformerCfg)
    (x : T) (rng rng2 : R) :
    VisionTransformer.call ops cfg false rng x false =
      VisionTransformer.call ops cfg false rng2 x false ∧
    (∀ (rate : ℚ) (k : R) (y : T), nnDropout ops rate true k y = y) := by
  refine ⟨?_, fun rate k y => nnDropout_deterministic ops rate k y⟩
  have hpre : VisionTransformer.prePool ops cfg false rng x false =
      VisionTransformer.prePool ops cfg false rng2 x false := by
    unfold VisionTransformer.prePool
    cases ht : cfg.transformer
    · rfl
    · exact encoder_rng_irrel ops _ "Transformer" rng rng2 _ cfg.hidden_size
  unfold VisionTransformer.call
  rw [hpre]

theorem exprOps_foldRng (r : ℕ) (s : String) : exprOps.foldRng r s = r := rfl

/-- Claim C7 (confirmed): in training mode each `Encoder1DBlock` — the layer
the `Encoder` stacks `num_layers` times — builds exactly this graph, in this
order: two squeeze-excitation MBConv blocks (each: 1x1 expand conv block
with batch norm and silu, 3x3 depthwise conv block with batch norm and silu,
squeeze-excitation gating, 1x1 projection, batch norm, residual add), layer
normalization, multi-head self-attention, dropout, a residual add of the
block's original input, a second layer normalization, two more MBConv
blocks, the position-wise MlpBlock (dense, gelu, dropout, dense, dropout),
and a final residual add of the attention-branch output `x6` and the
feed-forward-branch output `y4`. -/
theorem encoder_block_op_order (m h hs : ℕ) (name : String) (r : ℕ) :
    Encoder1DBlock.call exprOps { mlp_dim := m, num_heads := h } name true r
        TExpr.input false hs =
      (let mb := fun (c : ℕ) (nm : String) (t : TExpr) =>
        let hd := (pyRound ((c : ℚ) * 1)).toNat
        let c1 := TExpr.silu (TExpr.batchNorm (nm ++ "/ConvBlock_0" ++ "/BatchNorm_0") false
          (TExpr.conv (nm ++ "/ConvBlock_0" ++ "/Conv_0")
            { features := hd, kernel := (1, 1), strides := (1, 1),
              feature_group_count := 1, use_bias := false } t))
        let c2 := TExpr.silu (TExpr.batchNorm (nm ++ "/ConvBlock_1" ++ "/BatchNorm_0") false
          (TExpr.conv (nm ++ "/ConvBlock_1" ++ "/Conv_0")
            { features := hd, kernel := (3, 3), strides := (1, 1),
              feature_group_count := hd, use_bias := false } c1))
        let se := TExpr.mul c2 (TExpr.sigmoid
          (TExpr.conv (nm ++ "/SELayer_0" ++ "/Conv_1") { features := hd, kernel := (1, 1) }
            (TExpr.silu (TExpr.conv (nm ++ "/SELayer_0" ++ "/Conv_0")
              { features := SELayer.features c 4, kernel := (1, 1) } c2))))
        TExpr.add t (TExpr.batchNorm (nm ++ "/BatchNorm_0") false
          (TExpr.conv (nm ++ "/Conv_0")
            { features := c, kernel := (1, 1), use_bias := false } se))
      let x1 := mb hs (name ++ "/MBConv_0") TExpr.input
      let x2 := mb hs (name ++ "/MBConv_1") x1
      let x3 := TExpr.layerNorm (name ++ "/LayerNorm_0") x2
      let x4 := TExpr.attention (name ++ "/MultiHeadDotProductAttention_0") h (1/10)
        (some r) x3
      let x5 := TExpr.dropoutMask (1/10) r x4
      let x6 := TExpr.add x5 TExpr.input
      let y1 := TExpr.layerNorm (name ++ "/LayerNorm_1") x6
      let y2 := mb m (name ++ "/MBConv_2") y1
      let y3 := mb m (name ++ "/MBConv_3") y2
      let y4 := TExpr.dropoutMask (1/10) r (TExpr.dense (name ++ "/MlpBlock_0" ++ "/Dense_1") hs
        (TExpr.dropoutMask (1/10) r (TExpr.gelu
          (TExpr.dense (name ++ "/MlpBlock_0" ++ "/Dense_0") m y3))))
      TExpr.add x6 y4) := by
  norm_num [Encoder1DBlock.call, Encoder1DBlock.mbAttnCfg, Encoder1DBlock.mbMlpCfg,
    MBConv.call, MBConv.setup, MBConv.convPath, ConvBlock.call, SELayer.call,
    MlpBlock.call, nnDropout, exprOps_conv, exprOps_batchNorm, exprOps_silu,
    exprOps_sigmoid, exprOps_mul, exprOps_add, exprOps_layerNorm, exprOps_attention,
    exprOps_dense, exprOps_gelu, exprOps_dropoutMask, exprOps_foldRng]

/-- Claim C6 (confirmed): with classifier "token", the learned `cls`
parameter is tiled across the batch and concatenated at sequence position 0
before the encoder (which applies the positional embedding) runs, and the
head input is the encoded sequence at position 0.  First conjunct: the
operation graph of a concrete forward call exhibits exactly
`head(index0(encoder_norm(concat(tile(cls), tokens) + pos_embedding)))`.
Second conjunct, on the concrete sequence semantics: tiling the `(1, 1, c)`
class parameter and concatenating along the sequence axis prepends the same
vector `v` to every batch row, so position 0 of every row is `v`. -/
theorem cls_token_concat_and_token_pool :
    (VisionTransformer.call exprOps
        { num_classes := 2, patches_size := (4, 4),
          transformer := some { num_layers := 0, mlp_dim := 8, num_heads := 2 },
          hidden_size := 8 } false 0 TExpr.input false =
      ([Stage.patchEmbed, Stage.reshape, Stage.clsToken, Stage.encoder,
        Stage.pool, Stage.preLogits, Stage.head],
        Except.ok (TExpr.dense "head" 2 (TExpr.index0
          (TExpr.layerNorm ("Transformer" ++ "/encoder_norm")
            (TExpr.add
              (TExpr.concatSeq (TExpr.tileBatch (TExpr.param "cls"))
                (TExpr.reshapeTokens (TExpr.conv "embedding"
                  { features := 8, kernel := (4, 4), strides := (4, 4),
                    padding_valid := true } TExpr.input)))
              (TExpr.param ("Transformer" ++ "/posembed_input" ++ "/pos_embedding")))))))) ∧
    (∀ (τ : Type) (v : τ) (xs : List (List τ)),
      clsTokenAugment v xs = xs.map (fun s => v :: s) ∧
      tokenPoolSeq (clsTokenAugment v xs) = xs.map (fun _ => some v)) := by
  constructor
  · simp [VisionTransformer.call, VisionTransformer.prePool,
      VisionTransformer.stagesBeforePool, VisionTransformer.headPart, classifierPool,
      Encoder.call, AddPositionEmbs.call, IdentityLayer.call, nnDropout, exprOps]
  · intro τ v xs
    have htile : ∀ n : ℕ, jnpTileBatch n ([[v]] : List (List τ)) = List.replicate n [v] := by
      intro n
      induction n with
      | zero => rfl
      | succ k ih =>
        simp only [jnpTileBatch, List.replicate_succ, List.flatten_cons] at ih ⊢
        simp [ih]
    have hzip : ∀ ys : List (List τ),
        List.zipWith (fun r s => r ++ s) (List.replicate ys.length [v]) ys =
          ys.map (fun s => v :: s) := by
      intro ys
      induction ys with
      | nil => rfl
      | cons a t ih => simp [List.replicate_succ, ih]
    have hcat : clsTokenAugment v xs = xs.map (fun s => v :: s) := by
      unfold clsTokenAugment jnpConcatAxis1
      rw [htile xs.length]
      exact hzip xs
    refine ⟨hcat, ?_⟩
    rw [hcat]
    have hpool : ∀ ys : List (List τ),
        tokenPoolSeq (ys.map (fun s => v :: s)) = ys.map (fun _ => some v) := by
      intro ys
      induction ys with
      | nil => rfl
      | cons a t ih =>
        simp only [tokenPoolSeq, List.map_cons, List.head?_cons] at ih ⊢
        simp [ih]
    exact hpool xs

theorem pyRound_natCast (n : ℕ) : pyRound ((n : ℚ)) = n := by
  unfold pyRound
  norm_num [Int.floor_natCast]

theorem mbconv_width_attn (n w : ℕ) :
    MBConv.width (Encoder1DBlock.mbAttnCfg n) w = broadcastW w n := by
  simp [MBConv.width, Encoder1DBlock.mbAttnCfg, MBConv.setup, ConvBlock.width,
    SELayer.width, convW, pyRound_natCast, broadcastW, Nat.mod_one, Nat.mod_self]

theorem mbconv_width_mlp (m w : ℕ) :
    MBConv.width (Encoder1DBlock.mbMlpCfg m) w = broadcastW w m :=
  mbconv_width_attn m w

theorem broadcastW_self (a : ℕ) : broadcastW a a = some a := by
  simp [broadcastW]

theorem broadcastW_mismatch (a b : ℕ) (h2 : 2 ≤ a) (h3 : 2 ≤ b) (hne : a ≠ b) :
    broadcastW a b = none := by
  unfold broadcastW
  rw [if_neg hne, if_neg (by omega), if_neg (by omega)]

theorem encoderBlock_width_mismatch (cfg : Encoder1DBlockCfg) (hs : ℕ)
    (h2 : 2 ≤ hs) (h3 : 2 ≤ cfg.mlp_dim) (hne : cfg.mlp_dim ≠ hs) :
    Encoder1DBlock.width cfg hs hs = none := by
  have hb : broadcastW hs cfg.mlp_dim = none :=
    broadcastW_mismatch hs cfg.mlp_dim h2 h3 (fun hh => hne hh.symm)
  by_cases hmod : hs % cfg.num_heads = 0 <;>
    simp [Encoder1DBlock.width, mbconv_width_attn, mbconv_width_mlp, broadcastW_self,
      attentionW, hmod, hb]

theorem foldl_bind_none {α β : Type} (g : α → Option α) :
    ∀ l : List β, l.foldl (fun acc _ => acc >>= g) none = none := by
  intro l
  induction l with
  | nil => rfl
  | cons a t ih => simpa [List.foldl_cons] using ih

theorem encoder_width_mismatch (cfg : EncoderCfg) (hs : ℕ)
    (h2 : 2 ≤ hs) (h3 : 2 ≤ cfg.mlp_dim) (hne : cfg.mlp_dim ≠ hs)
    (hl : 1 ≤ cfg.num_layers) :
    Encoder.width cfg hs hs = none := by
  obtain ⟨k, hk⟩ : ∃ k, cfg.num_layers = k + 1 := ⟨cfg.num_layers - 1, by omega⟩
  have hb := encoderBlock_width_mismatch
    { mlp_dim := cfg.mlp_dim, num_heads := cfg.num_heads,
      dropout_rate := cfg.dropout_rate,
      attention_dropout_rate := cfg.attention_dropout_rate } hs h2 h3 hne
  unfold Encoder.width
  rw [hk, List.range_succ_eq_map, List.foldl_cons]
  have hstep : ((some hs : Option ℕ) >>= fun ww => Encoder1DBlock.width
      { mlp_dim := cfg.mlp_dim, num_heads := cfg.num_heads,
        dropout_rate := cfg.dropout_rate,
        attention_dropout_rate := cfg.attention_dropout_rate } hs ww) = none := hb
  rw [hstep]
  exact foldl_bind_none _ _

/-- Claim C10 counterexample: a configuration with `mlp_dim = 2` and
`hidden_size = 1` (one encoder layer, one head): although
`mlp_dim ≠ hidden_size`, the forward channel-width computation succeeds —
the identity-residual adds broadcast the width-1 operand instead of
failing — so the forward call does not fail with a shape error. -/
theorem mlp_dim_mismatch_width_one_ok :
    VisionTransformer.width
      { num_classes := 3, patches_size := (2, 2),
        transformer := some { num_layers := 1, mlp_dim := 2, num_heads := 1 },
        hidden_size := 1 } 3 = some 3 ∧ (2 : ℕ) ≠ 1 := by
  refine ⟨?_, by decide⟩
  simp [VisionTransformer.width, Encoder.width, Encoder1DBlock.width,
    mbconv_width_attn, mbconv_width_mlp, MlpBlock.width, denseW, convW, attentionW,
    broadcastW, classifierPool, List.range_succ]

/-- Claim C10 amended: the feed-forward branch applies MBConv blocks built
with `inp = oup = mlp_dim` to tokens of width `hidden_size`, and their
identity-residual add requires the two widths to broadcast; consequently,
whenever a transformer with at least one layer is configured and
`mlp_dim ≠ hidden_size` with both at least 2, the forward pass fails with a
shape error.  (When either width is 1, NumPy broadcasting makes the add
succeed instead, so the failure is not universal — see the
counterexample.) -/
theorem mlp_dim_mismatch_width_error (cfg : VisionTransformerCfg) (t : EncoderCfg)
    (c : ℕ) (ht : cfg.transformer = some t)
    (h2 : 2 ≤ cfg.hidden_size) (h3 : 2 ≤ t.mlp_dim)
    (hne : t.mlp_dim ≠ cfg.hidden_size) (hl : 1 ≤ t.num_layers) :
    VisionTransformer.width cfg c = none := by
  have henc : Encoder.width t cfg.hidden_size cfg.hidden_size = none :=
    encoder_width_mismatch t cfg.hidden_size h2 h3 hne hl
  cases hr : cfg.resnet <;>
    simp [VisionTransformer.width, ht, hr, convW, Nat.mod_one, henc]

/-- Claim C10 witness: the amended theorem applied at `hidden_size = 2`,
`mlp_dim = 3`, one layer. -/
theorem mlp_dim_mismatch_width_error_witness :
    VisionTransformer.width
      { num_classes := 3, patches_size := (2, 2),
        transformer := some { num_layers := 1, mlp_dim := 3, num_heads := 1 },
        hidden_size := 2 } 3 = none :=
  mlp_dim_mismatch_width_error _ _ 3 rfl (by decide) (by decide) (by decide) (by decide)
